import Mathlib

/-
Verification of the GCP-based georeferencing layer of titiler-image.

Part A embeds the code of `src/titiler/image/main.py` (the only executable
source of the repository under `src/`): the `parse_gcps` helper, the two
pixel/geo conversion endpoints `latlng_to_pixel` and `pixel_to_latlng`, and
the module-import side effect on the process-wide `warnings` filter.

Part B models the Dataset Reader core (`titiler.image.reader`), whose code
is not present under `src/` (only its tests and callers are); those
definitions are modelled from the specification and carry doc comments
starting with `Modelled from the spec:`.

Machine reals (Python floats) are embedded as exact rationals `ℚ`.
-/

namespace TitilerImage

/-! ## Rational division by explicit fraction construction

Batteries marks `Rat.inv` irreducible, which blocks kernel evaluation of
`decide` on goals containing `/` on `ℚ`.  The executable definitions below
therefore use `qdiv`, proven equal to ordinary rational division. -/

/-- Rational division computed by explicit fraction construction. -/
def qdiv (a b : ℚ) : ℚ := mkRat (a.num * b.den * b.num.sign) (a.den * b.num.natAbs)

/-- Division of rationals in terms of numerators and denominators. -/
theorem rat_div_num_den (a b : ℚ) : a / b = (a.num * b.den) / (a.den * b.num) := by
  rcases eq_or_ne b 0 with hb | hb
  · subst hb; simp
  · have hbn : (b.num : ℚ) ≠ 0 := by
      simpa [Rat.num_eq_zero] using hb
    have had : (a.den : ℚ) ≠ 0 := by
      exact_mod_cast (Nat.cast_ne_zero).2 a.den_nz
    have hbd : (b.den : ℚ) ≠ 0 := by
      exact_mod_cast (Nat.cast_ne_zero).2 b.den_nz
    conv_lhs => rw [← Rat.num_div_den a, ← Rat.num_div_den b]
    field_simp

/-- `qdiv` is ordinary division of rationals. -/
theorem qdiv_eq (a b : ℚ) : qdiv a b = a / b := by
  rw [qdiv, Rat.mkRat_eq_div]
  rcases lt_trichotomy b.num 0 with hb | hb | hb
  · have hs : b.num.sign = -1 := Int.sign_eq_neg_one_of_neg hb
    have hna : (b.num.natAbs : ℤ) = -b.num := Int.ofNat_natAbs_of_nonpos hb.le
    have hnaQ : ((b.num.natAbs : ℕ) : ℚ) = -(b.num : ℚ) := by
      rw [← Int.cast_natCast (R := ℚ), hna]
      push_cast
      ring
    have hbn : (b.num : ℚ) ≠ 0 := by
      intro h
      exact absurd (by exact_mod_cast h : b.num = 0) (by omega)
    have had : (a.den : ℚ) ≠ 0 := by
      exact_mod_cast (Nat.cast_ne_zero).2 a.den_nz
    rw [rat_div_num_den a b]
    push_cast [hs]
    rw [hnaQ]
    field_simp
  · have hb0 : b = 0 := by rwa [Rat.num_eq_zero] at hb
    simp [hb, hb0]
  · have hs : b.num.sign = 1 := Int.sign_eq_one_of_pos hb
    have hna : (b.num.natAbs : ℤ) = b.num := Int.natAbs_of_nonneg hb.le
    have hnaQ : ((b.num.natAbs : ℕ) : ℚ) = (b.num : ℚ) := by
      rw [← Int.cast_natCast (R := ℚ), hna]
    rw [rat_div_num_den a b]
    push_cast [hs]
    rw [hnaQ]
    simp

/-- Negation of a rational by explicit fraction construction. -/
def qneg (a : ℚ) : ℚ := mkRat (-a.num) a.den

/-- Addition of rationals by explicit fraction construction. -/
def qadd (a b : ℚ) : ℚ := mkRat (a.num * b.den + b.num * a.den) (a.den * b.den)

/-- Multiplication of rationals by explicit fraction construction. -/
def qmul (a b : ℚ) : ℚ := mkRat (a.num * b.num) (a.den * b.den)

/-- Subtraction of rationals by explicit fraction construction. -/
def qsub (a b : ℚ) : ℚ := qadd a (qneg b)

/-- `qneg` is ordinary negation of rationals. -/
theorem qneg_eq (a : ℚ) : qneg a = -a := by
  rw [qneg, Rat.mkRat_eq_div]
  push_cast
  rw [neg_div, Rat.num_div_den]

/-- `qadd` is ordinary addition of rationals. -/
theorem qadd_eq (a b : ℚ) : qadd a b = a + b := by
  have had : (a.den : ℚ) ≠ 0 := by exact_mod_cast (Nat.cast_ne_zero).2 a.den_nz
  have hbd : (b.den : ℚ) ≠ 0 := by exact_mod_cast (Nat.cast_ne_zero).2 b.den_nz
  rw [qadd, Rat.mkRat_eq_div]
  push_cast
  conv_rhs => rw [← Rat.num_div_den a, ← Rat.num_div_den b]
  rw [div_add_div _ _ had hbd]
  ring_nf

/-- `qmul` is ordinary multiplication of rationals. -/
theorem qmul_eq (a b : ℚ) : qmul a b = a * b := by
  rw [qmul, Rat.mkRat_eq_div]
  push_cast
  conv_rhs => rw [← Rat.num_div_den a, ← Rat.num_div_den b]
  rw [div_mul_div_comm]

/-- `qsub` is ordinary subtraction of rationals. -/
theorem qsub_eq (a b : ℚ) : qsub a b = a - b := by
  rw [qsub, qadd_eq, qneg_eq, sub_eq_add_neg]

/-- Natural power on rationals through `qmul`, kernel-evaluable. -/
def qpowN (q : ℚ) : Nat → ℚ
  | 0 => 1
  | n + 1 => qmul q (qpowN q n)

/-- `qpowN` is ordinary natural power of rationals. -/
theorem qpowN_eq (q : ℚ) (n : Nat) : qpowN q n = q ^ n := by
  induction n with
  | zero => rw [qpowN, pow_zero]
  | succ n ih => rw [qpowN, qmul_eq, ih, pow_succ, mul_comm]

/-- Integer power on rationals through `qdiv`, kernel-evaluable. -/
def qpowZ (q : ℚ) (e : ℤ) : ℚ :=
  if 0 ≤ e then qpowN q e.toNat else qdiv 1 (qpowN q (-e).toNat)

/-- Sum of a list of rationals through `qadd`, kernel-evaluable. -/
def qsum : List ℚ → ℚ
  | [] => 0
  | a :: t => qadd a (qsum t)

/-- `qsum` is the ordinary sum of a list of rationals. -/
theorem qsum_eq (l : List ℚ) : qsum l = l.sum := by
  induction l with
  | nil => rw [qsum, List.sum_nil]
  | cons a t ih => rw [qsum, qadd_eq, ih, List.sum_cons]

/-- Decidable equality on `Except`, absent from the libraries used here. -/
instance instDecEqExcept {ε α : Type} [DecidableEq ε] [DecidableEq α] :
    DecidableEq (Except ε α) := fun a b =>
  match a, b with
  | .ok x, .ok y => decidable_of_iff (x = y) (by simp)
  | .error x, .error y => decidable_of_iff (x = y) (by simp)
  | .ok _, .error _ => isFalse (by simp)
  | .error _, .ok _ => isFalse (by simp)

/-! ## Part A: embedding of `src/titiler/image/main.py` -/

/-- Python-style splitting of a character list at every occurrence of `sep`;
`splitOnChar sep []` is `[[]]`, matching Python's `"".split(",") == [""]`. -/
def splitOnChar (sep : Char) : List Char → List (List Char)
  | [] => [[]]
  | c :: rest =>
    if c = sep then [] :: splitOnChar sep rest
    else
      match splitOnChar sep rest with
      | f :: fs => (c :: f) :: fs
      | [] => [[c]]

/-- Numeric value of a decimal digit character. -/
def digitVal (c : Char) : Nat := c.toNat - 48

/-- Value of a run of decimal digit characters (most significant first). -/
def digitsToNat (cs : List Char) : Nat := cs.foldl (fun a c => a * 10 + digitVal c) 0

/-- Whether every character of the list is a decimal digit. -/
def allDigits (cs : List Char) : Bool := cs.all Char.isDigit

/-- Parse an unsigned decimal mantissa (`"12"`, `"12.5"`, `"12."`, `".5"`),
returning `none` on anything else.  Models the mantissa grammar accepted by
Python's `float` constructor, restricted to plain decimal literals (the
model omits `inf`/`nan`, underscores in digit runs and surrounding
whitespace, none of which occur in the inputs considered here). -/
def parseMantissa (cs : List Char) : Option ℚ :=
  match splitOnChar '.' cs with
  | [ip] =>
    if ip.isEmpty then none
    else if allDigits ip then some (digitsToNat ip : ℚ) else none
  | [ip, fp] =>
    if ip.isEmpty && fp.isEmpty then none
    else if allDigits ip && allDigits fp then
      some (qadd (digitsToNat ip : ℚ) (qdiv (digitsToNat fp : ℚ) (qpowN 10 fp.length)))
    else none
  | _ => none

/-- Parse an optionally signed integer exponent part. -/
def parseExpPart (cs : List Char) : Option ℤ :=
  match cs with
  | '+' :: rest =>
    if rest.isEmpty then none
    else if allDigits rest then some (digitsToNat rest : ℤ) else none
  | '-' :: rest =>
    if rest.isEmpty then none
    else if allDigits rest then some (-(digitsToNat rest : ℤ)) else none
  | rest =>
    if rest.isEmpty then none
    else if allDigits rest then some (digitsToNat rest : ℤ) else none

/-- Parse an optionally signed mantissa. -/
def parseSignedMantissa : List Char → Option ℚ
  | '+' :: rest => parseMantissa rest
  | '-' :: rest => (parseMantissa rest).map qneg
  | cs => parseMantissa cs

/-- Model of Python's `float(s)` on the character list of `s`: an optionally
signed decimal mantissa with an optional `e`/`E` exponent; `none` models the
`ValueError` raised on any other input. -/
def pyFloat (cs : List Char) : Option ℚ :=
  let norm := cs.map (fun c => if c = 'E' then 'e' else c)
  match splitOnChar 'e' norm with
  | [m] => parseSignedMantissa m
  | [m, ex] => do
    let mv ← parseSignedMantissa m
    let ev ← parseExpPart ex
    pure (qmul mv (qpowZ 10 ev))
  | _ => none

/-- Python exceptions that the embedded code can raise. -/
inductive PyError
  | valueError
  | typeError
deriving DecidableEq

/-- The `rasterio.control.GroundControlPoint` constructor signature
`(row=None, col=None, x=None, y=None, z=None, id=None, info=None)`; every
positional argument passed by `parse_gcps` is a float, so the fields are
optional rationals here. -/
structure GroundControlPoint where
  row : Option ℚ := none
  col : Option ℚ := none
  x : Option ℚ := none
  y : Option ℚ := none
  z : Option ℚ := none
  id : Option ℚ := none
  gcpInfo : Option ℚ := none
deriving DecidableEq

/-- Calling `GroundControlPoint(*vals)` with a list of floats: Python raises
`TypeError` when more than the 7 positional parameters are supplied, and
fills the parameters positionally otherwise (missing ones default to None). -/
def gcpOfFloats (vals : List ℚ) : Except PyError GroundControlPoint :=
  if 7 < vals.length then .error .typeError
  else
    .ok
      { row := vals.get? 0, col := vals.get? 1, x := vals.get? 2, y := vals.get? 3,
        z := vals.get? 4, id := vals.get? 5, gcpInfo := vals.get? 6 }

/-- Left-to-right effectful map for `Option`, mirroring Python's eager
`list(map(float, ...))`: the first failing element aborts the whole map. -/
def mapOpt (f : α → Option β) (l : List α) : Option (List β) :=
  match l with
  | [] => some []
  | a :: t =>
    match f a with
    | none => none
    | some b =>
      match mapOpt f t with
      | none => none
      | some bs => some (b :: bs)

/-- Left-to-right effectful map for `Except`, mirroring Python's list
comprehension: the first element that raises aborts the comprehension. -/
def mapExcept (f : α → Except ε β) (l : List α) : Except ε (List β) :=
  match l with
  | [] => .ok []
  | a :: t =>
    match f a with
    | .error e => .error e
    | .ok b =>
      match mapExcept f t with
      | .error e => .error e
      | .ok bs => .ok (b :: bs)

/-- One element of the `parse_gcps` comprehension (main.py line 100):
`GroundControlPoint(*list(map(float, gcps.split(","))))`. -/
def parseGCPString (s : String) : Except PyError GroundControlPoint :=
  match mapOpt pyFloat (splitOnChar ',' s.data) with
  | none => .error .valueError
  | some vals => gcpOfFloats vals

/-- The function `parse_gcps` of main.py lines 98-102: it builds the list of
`GroundControlPoint`s (raising on unparseable input) but falls off the end of
the function body without a `return` statement, so its value is Python's
`None`, modelled as the `none` of `Option (List GroundControlPoint)`. -/
def parse_gcps (gcps : List String) : Except PyError (Option (List GroundControlPoint)) := do
  let _gcpList ← mapExcept parseGCPString gcps
  pure none

/-- The argument pair an endpoint passes to the `Reader` constructor
(`Reader(url, gcps=gcpList)`). -/
structure ReaderCall where
  url : String
  gcps : Option (List GroundControlPoint)
deriving DecidableEq

/-- The `Reader` call made by `latlng_to_pixel` (main.py lines 107-108):
`gcpList = parse_gcps(gcps)` then `Reader(url, gcps=gcpList)`. -/
def latlng_to_pixel_readerCall (url : String) (gcps : List String) :
    Except PyError ReaderCall := do
  let gcpList ← parse_gcps gcps
  pure { url := url, gcps := gcpList }

/-- The `Reader` call made by `pixel_to_latlng` (main.py lines 118-119):
`gcpList = parse_gcps(gcps)` then `Reader(url, gcps=gcpList)`. -/
def pixel_to_latlng_readerCall (url : String) (gcps : List String) :
    Except PyError ReaderCall := do
  let gcpList ← parse_gcps gcps
  pure { url := url, gcps := gcpList }

/-- The dataset object exposed by an opened `Reader`: its CRS string, its
`index` method (spatial coordinates to `(row, col)`) and its `xy` method
(`(row, col)` to spatial coordinates). -/
structure DatasetModel where
  crsStr : String
  index : ℚ → ℚ → ℚ × ℚ
  xy : ℚ → ℚ → ℚ × ℚ

/-- The external collaborators of the endpoints: the `Reader` constructor
(yielding a dataset for a url and optional GCP list) and the pyproj
`Transformer` (`from_crs`, `to_crs`, then a coordinate pair). -/
structure Env where
  readerDataset : String → Option (List GroundControlPoint) → DatasetModel
  transform : String → String → ℚ → ℚ → ℚ × ℚ

/-- Response body of `latlng_to_pixel`: `{"x": px, "y": py}`. -/
structure PixelResponse where
  x : ℚ
  y : ℚ
deriving DecidableEq

/-- Response body of `pixel_to_latlng`: `{"latitude": .., "longitude": ..}`. -/
structure LatLngResponse where
  latitude : ℚ
  longitude : ℚ
deriving DecidableEq

/-- The endpoint `latlng_to_pixel` of main.py lines 104-113. -/
def latlng_to_pixel (env : Env) (url : String) (latitude longitude : ℚ)
    (gcps : List String) : Except PyError PixelResponse := do
  let gcpList ← parse_gcps gcps
  let dataset := env.readerDataset url gcpList
  let p := env.transform "EPSG:4326" dataset.crsStr latitude longitude
  let q := dataset.index p.1 p.2
  pure { x := q.2, y := q.1 }

/-- The endpoint `pixel_to_latlng` of main.py lines 115-124. -/
def pixel_to_latlng (env : Env) (url : String) (x y : ℚ)
    (gcps : List String) : Except PyError LatLngResponse := do
  let gcpList ← parse_gcps gcps
  let dataset := env.readerDataset url gcpList
  let p := dataset.xy y x
  let q := env.transform dataset.crsStr "EPSG:4326" p.1 p.2
  pure { latitude := q.1, longitude := q.2 }

/-! ### The process-wide warnings filter (main.py line 43) -/

/-- Warning categories relevant to the application. -/
inductive WarningCategory
  | notGeoreferencedWarning
  | otherWarning
deriving DecidableEq

/-- The mutable state of Python's process-wide `warnings` module: the list
of categories currently filtered as ignored. -/
structure WarningFilters where
  ignored : List WarningCategory
deriving DecidableEq

/-- `warnings.filterwarnings("ignore", category=cat)`: prepends an ignore
filter to the process-wide filter list. -/
def filterwarningsIgnore (cat : WarningCategory) (st : WarningFilters) : WarningFilters :=
  ⟨cat :: st.ignored⟩

/-- The warnings state before the application module is imported. -/
def initialFilters : WarningFilters := ⟨[]⟩

/-- The side effect of importing `titiler.image.main` (line 43):
`warnings.filterwarnings("ignore", category=NotGeoreferencedWarning)`,
applied to whatever process-wide warnings state was current. -/
def appModuleImport (st : WarningFilters) : WarningFilters :=
  filterwarningsIgnore .notGeoreferencedWarning st

/-- Whether a warning category is suppressed in a given process-wide state;
every `Reader` opened afterwards in the process observes this shared state. -/
def suppressed (st : WarningFilters) (cat : WarningCategory) : Bool :=
  st.ignored.contains cat

/-! ## Part B: the Dataset Reader core, modelled from the spec

The module `titiler.image.reader` is not present under `src/` (only its
tests and callers are), so the definitions below are modelled from the
specification (sections 3, 4.1-4.4, 7, 8). -/

/-- Modelled from the spec (section 3): a Ground Control Point of the core,
a `(pixel-row, pixel-col, lon, lat, elevation)` correspondence. -/
structure GCP where
  row : ℚ
  col : ℚ
  x : ℚ
  y : ℚ
  z : ℚ := 0
deriving DecidableEq

/-- Modelled from the spec (sections 3 and 4.1): a GCP Set, an ordered
sequence of Ground Control Points together with an optional explicit CRS
tag carried by the GCPs. -/
structure GCPSet where
  points : List GCP
  crsTag : Option String := none
deriving DecidableEq

/-- Modelled from the spec (section 3): per-band metadata of the raw
dataset handle: color-interpretation tag, description, and the optional
band name supplied by the underlying format. -/
structure BandInfo where
  colorinterp : String
  description : String := ""
  bandName : Option String := none
deriving DecidableEq

/-- Modelled from the spec (sections 3 and 6): the external raw raster
resource: dimensions, per-band metadata, optional scalar nodata value,
internal mask band presence, embedded GCPs if any, per-band pixel samples
(band index 0-based) and the internal mask-band samples (`true` = valid). -/
structure DatasetHandle where
  width : Nat
  height : Nat
  bands : List BandInfo
  nodataValue : Option ℚ := none
  hasMaskBand : Bool := false
  embeddedGCPs : Option GCPSet := none
  pixels : Nat → Nat → Nat → ℚ
  maskSample : Nat → Nat → Bool := fun _ _ => true

/-- Modelled from the spec (section 3): the Georeferencing Mode tagged
variant. -/
inductive Mode
  | embeddedGCPs
  | externalGCPs
  | noGeoreference
deriving DecidableEq

/-- Modelled from the spec (section 7): the error taxonomy of the core. -/
inductive ReaderError
  | invalidGCPError
  | notGeoreferencedError
  | tileOutsideBoundsError
deriving DecidableEq

/-! ### Metadata Assembler (spec section 4.4) -/

/-- Modelled from the spec (section 3): the nodata classification. -/
inductive NodataType
  | alpha
  | nodataVal
  | maskBand
  | noneType
deriving DecidableEq

/-- The string rendering used by `info()` for the nodata classification. -/
def NodataType.render : NodataType → String
  | .alpha => "Alpha"
  | .nodataVal => "Nodata"
  | .maskBand => "MaskBand"
  | .noneType => "None"

/-- Modelled from the spec (section 4.4): nodata classification order of
precedence: alpha band presence, else explicit nodata value, else internal
mask band, else none. -/
def classify (d : DatasetHandle) : NodataType :=
  if d.bands.any (fun b => b.colorinterp = "alpha") then .alpha
  else if d.nodataValue.isSome then .nodataVal
  else if d.hasMaskBand then .maskBand
  else .noneType

/-- Modelled from the spec (section 4.4): per-band `(name, description)`
pairs; the name defaults to the 1-based positional label `b1`, `b2`, ...
when the underlying format supplies no name. -/
def bandDescriptions (d : DatasetHandle) : List (String × String) :=
  d.bands.enum.map (fun ib =>
    (ib.2.bandName.getD ("b" ++ toString (ib.1 + 1)), ib.2.description))

/-- Modelled from the spec (section 3): the Raster Info derived snapshot. -/
structure RasterInfo where
  count : Nat
  band_descriptions : List (String × String)
  colorinterp : List String
  nodata_type : String
  width : Nat
  height : Nat
  crs : Option String
deriving DecidableEq

/-- Modelled from the spec (section 4.4): `assemble(dataset_handle)`, a pure
function of the dataset handle (and the CRS resolved at open time). -/
def assemble (d : DatasetHandle) (crs : Option String) : RasterInfo :=
  { count := d.bands.length
    band_descriptions := bandDescriptions d
    colorinterp := d.bands.map (fun b => b.colorinterp)
    nodata_type := (classify d).render
    width := d.width
    height := d.height
    crs := crs }

/-! ### The GCP-derived affine transform (spec section 4.2) -/

/-- An affine map from pixel space `(row, col)` to geographic space:
`x = a0 + a1*row + a2*col`, `y = b0 + b1*row + b2*col`. -/
structure AffineXY where
  a0 : ℚ
  a1 : ℚ
  a2 : ℚ
  b0 : ℚ
  b1 : ℚ
  b2 : ℚ
deriving DecidableEq

/-- Sum of a rational-valued function over a GCP list. -/
def sumBy (gs : List GCP) (f : GCP → ℚ) : ℚ := qsum (gs.map f)

/-- Determinant of a 3 by 3 matrix given row by row. -/
def det3 (a b c d e f g h i : ℚ) : ℚ :=
  qadd (qsub (qmul a (qsub (qmul e i) (qmul f h))) (qmul b (qsub (qmul d i) (qmul f g))))
    (qmul c (qsub (qmul d h) (qmul e g)))

/-- `det3` in terms of ordinary rational arithmetic. -/
theorem det3_eq (a b c d e f g h i : ℚ) :
    det3 a b c d e f g h i =
      a * (e * i - f * h) - b * (d * i - f * g) + c * (d * h - e * g) := by
  simp only [det3, qadd_eq, qsub_eq, qmul_eq]

/-- Modelled from the spec (section 4.2): determinant of the normal matrix
of the least-squares affine fit over the GCPs, with features
`(1, row, col)`.  It is nonzero exactly when the fit is well posed, i.e.
when the GCP pixel locations contain at least 3 points not all collinear. -/
def normalDet (gs : List GCP) : ℚ :=
  det3 (sumBy gs (fun _ => 1)) (sumBy gs (fun p => p.row)) (sumBy gs (fun p => p.col))
    (sumBy gs (fun p => p.row)) (sumBy gs (fun p => qmul p.row p.row))
    (sumBy gs (fun p => qmul p.row p.col))
    (sumBy gs (fun p => p.col)) (sumBy gs (fun p => qmul p.row p.col))
    (sumBy gs (fun p => qmul p.col p.col))

/-- Modelled from the spec (section 4.2): the affine fit minimizing the
least-squares residual over all GCPs, solved from the normal equations by
Cramer's rule (for exactly 3 non-collinear GCPs this interpolates them
exactly). -/
def affineFit (gs : List GCP) : AffineXY :=
  let n := sumBy gs (fun _ => 1)
  let sr := sumBy gs (fun p => p.row)
  let sc := sumBy gs (fun p => p.col)
  let srr := sumBy gs (fun p => qmul p.row p.row)
  let src := sumBy gs (fun p => qmul p.row p.col)
  let scc := sumBy gs (fun p => qmul p.col p.col)
  let tx0 := sumBy gs (fun p => p.x)
  let tx1 := sumBy gs (fun p => qmul p.x p.row)
  let tx2 := sumBy gs (fun p => qmul p.x p.col)
  let ty0 := sumBy gs (fun p => p.y)
  let ty1 := sumBy gs (fun p => qmul p.y p.row)
  let ty2 := sumBy gs (fun p => qmul p.y p.col)
  let det := det3 n sr sc sr srr src sc src scc
  { a0 := qdiv (det3 tx0 sr sc tx1 srr src tx2 src scc) det
    a1 := qdiv (det3 n tx0 sc sr tx1 src sc tx2 scc) det
    a2 := qdiv (det3 n sr tx0 sr srr tx1 sc src tx2) det
    b0 := qdiv (det3 ty0 sr sc ty1 srr src ty2 src scc) det
    b1 := qdiv (det3 n ty0 sc sr ty1 src sc ty2 scc) det
    b2 := qdiv (det3 n sr ty0 sr srr ty1 sc src ty2) det }

/-- Apply the forward affine map to a `(row, col)` pixel coordinate. -/
def applyFwd (A : AffineXY) (p : ℚ × ℚ) : ℚ × ℚ :=
  (qadd (qadd A.a0 (qmul A.a1 p.1)) (qmul A.a2 p.2),
   qadd (qadd A.b0 (qmul A.b1 p.1)) (qmul A.b2 p.2))

/-- `applyFwd` in terms of ordinary rational arithmetic. -/
theorem applyFwd_eq (A : AffineXY) (p : ℚ × ℚ) :
    applyFwd A p = (A.a0 + A.a1 * p.1 + A.a2 * p.2, A.b0 + A.b1 * p.1 + A.b2 * p.2) := by
  simp only [applyFwd, qadd_eq, qmul_eq]

/-- Apply the inverse affine map to a geographic `(x, y)` coordinate,
recovering `(row, col)`; uses the 2 by 2 linear-part determinant. -/
def applyInv (A : AffineXY) (q : ℚ × ℚ) : ℚ × ℚ :=
  (qdiv (qsub (qmul (qsub q.1 A.a0) A.b2) (qmul (qsub q.2 A.b0) A.a2))
    (qsub (qmul A.a1 A.b2) (qmul A.a2 A.b1)),
   qdiv (qsub (qmul A.a1 (qsub q.2 A.b0)) (qmul A.b1 (qsub q.1 A.a0)))
    (qsub (qmul A.a1 A.b2) (qmul A.a2 A.b1)))

/-- `applyInv` in terms of ordinary rational arithmetic. -/
theorem applyInv_eq (A : AffineXY) (q : ℚ × ℚ) :
    applyInv A q =
      (((q.1 - A.a0) * A.b2 - (q.2 - A.b0) * A.a2) / (A.a1 * A.b2 - A.a2 * A.b1),
       (A.a1 * (q.2 - A.b0) - A.b1 * (q.1 - A.a0)) / (A.a1 * A.b2 - A.a2 * A.b1)) := by
  simp only [applyInv, qdiv_eq, qsub_eq, qmul_eq]

/-- Modelled from the spec (section 4.2): `pixel_to_geo(row, col)` applies
the GCP-derived affine fit. -/
def pixel_to_geo (gs : List GCP) (p : ℚ × ℚ) : ℚ × ℚ := applyFwd (affineFit gs) p

/-- Modelled from the spec (section 4.2): `geo_to_pixel(x, y)`, the inverse
of `pixel_to_geo`. -/
def geo_to_pixel (gs : List GCP) (q : ℚ × ℚ) : ℚ × ℚ := applyInv (affineFit gs) q

/-- Determinant of the linear part of the fitted affine transform; nonzero
exactly when the fitted forward transform is invertible (the geographic
images of the GCPs are themselves not collinear). -/
def fitDet (gs : List GCP) : ℚ :=
  qsub (qmul (affineFit gs).a1 (affineFit gs).b2) (qmul (affineFit gs).a2 (affineFit gs).b1)

/-! ### Georeferencing Resolver (spec section 4.1) -/

/-- Whether three GCPs have collinear pixel locations (zero cross product). -/
def collinear3 (p q r : GCP) : Bool :=
  qsub (qmul (qsub q.row p.row) (qsub r.col p.col))
    (qmul (qsub q.col p.col) (qsub r.row p.row)) == 0

/-- Modelled from the spec (sections 4.2 and 7): whether all GCP pixel
locations of the list are collinear (every triple is collinear). -/
def collinearPts (ps : List GCP) : Bool :=
  ps.all (fun p => ps.all (fun q => ps.all (fun r => collinear3 p q r)))

/-- Modelled from the spec (section 4.1): whether a GCP's pixel coordinates
lie within the raster's pixel bounds, the half-open box
`[0, width) x [0, height)` with `col` against `width` and `row` against
`height`. -/
def inBoundsGCP (d : DatasetHandle) (p : GCP) : Bool :=
  0 ≤ p.col && p.col < (d.width : ℚ) && 0 ≤ p.row && p.row < (d.height : ℚ)

/-- Modelled from the spec (sections 4.1, 4.2 and 7): whether a GCP Set is
degenerate for the raster: fewer than 3 distinct points, all pixel
locations collinear, or some pixel coordinate outside the raster bounds. -/
def degenerateGCPs (d : DatasetHandle) (g : GCPSet) : Bool :=
  decide (g.points.dedup.length < 3) || collinearPts g.points ||
    g.points.any (fun p => !(inBoundsGCP d p))

/-- Modelled from the spec (sections 4.1 and 7): validation performed at
resolution time; a degenerate GCP Set fails with `InvalidGCPError`. -/
def validateGCPs (d : DatasetHandle) (g : GCPSet) : Except ReaderError Unit :=
  if degenerateGCPs d g then .error .invalidGCPError else .ok ()

/-- Modelled from the spec (section 4.1): the result of resolution: the
selected mode, the resolved CRS (none in `NoGeoreference` mode) and the
constructed transform parameters (none in `NoGeoreference` mode).  CRS
identifiers are normalized to lowercase `authority:code` strings, matching
the case-insensitive CRS identity of the test assertions. -/
structure Resolved where
  mode : Mode
  crs : Option String
  transform : Option AffineXY
deriving DecidableEq

/-- Modelled from the spec (section 4.1): resolution when no usable external
GCP Set was supplied: trust embedded GCPs when the handle carries them
(validating them, CRS from the embedded CRS tag defaulting to epsg:4326),
else declare the image non-georeferenced with no transform constructed. -/
def resolveEmbedded (d : DatasetHandle) : Except ReaderError Resolved :=
  match d.embeddedGCPs with
  | some g => do
    validateGCPs d g
    pure { mode := .embeddedGCPs, crs := some (g.crsTag.getD "epsg:4326"),
           transform := some (affineFit g.points) }
  | none => pure { mode := .noGeoreference, crs := none, transform := none }

/-- Modelled from the spec (section 4.1): `resolve(dataset_handle,
external_gcps)`.  A provided non-empty external GCP Set selects
`ExternalGCPs` mode after validation, with CRS epsg:4326 unless the GCPs
carry an explicit CRS tag; otherwise the embedded-GCP rule applies.
Resolution happens exactly once, at open time. -/
def resolve (d : DatasetHandle) (ext : Option GCPSet) : Except ReaderError Resolved :=
  match ext with
  | some g =>
    if g.points.isEmpty then resolveEmbedded d
    else do
      validateGCPs d g
      pure { mode := .externalGCPs, crs := some (g.crsTag.getD "epsg:4326"),
             transform := some (affineFit g.points) }
  | none => resolveEmbedded d

/-! ### Dataset Reader (spec section 4.3) -/

/-- Modelled from the spec (section 4.3): the handle returned by `open`:
the underlying dataset plus the resolution computed once at open time. -/
structure ReaderHandle where
  dataset : DatasetHandle
  resolved : Resolved

/-- Modelled from the spec (section 4.3): `open(path, gcps)`, here applied
directly to the dataset handle the path denotes; resolution failures
propagate and no reader is produced. -/
def openReader (d : DatasetHandle) (ext : Option GCPSet) :
    Except ReaderError ReaderHandle :=
  (resolve d ext).map (fun r => { dataset := d, resolved := r })

/-- The `info()` of an opened reader: delegates to the Metadata Assembler. -/
def infoOf (h : ReaderHandle) : RasterInfo := assemble h.dataset h.resolved.crs

/-- The `crs` attribute of an opened reader. -/
def crsOf (h : ReaderHandle) : Option String := h.resolved.crs

/-- The GCP-stripped version of a dataset: identical raw pixel data and
metadata, with the embedded GCPs removed. -/
def stripGCPs (d : DatasetHandle) : DatasetHandle := { d with embeddedGCPs := none }

/-- Modelled from the spec (section 4.3.1): the masking policy driven by the
nodata classification, applied at a pixel `(r, c)` when reading band
`band` (0-based): alpha classification masks where the alpha band's value
is 0 (for every band read); nodata classification masks where the band
value equals the nodata value; mask-band classification consults the
internal mask band; otherwise nothing is masked. -/
def maskedAt (d : DatasetHandle) (band r c : Nat) : Bool :=
  match classify d with
  | .alpha =>
    match d.bands.findIdx? (fun b => b.colorinterp = "alpha") with
    | some i => d.pixels i r c == 0
    | none => false
  | .nodataVal =>
    match d.nodataValue with
    | some v => d.pixels band r c == v
    | none => false
  | .maskBand => !(d.maskSample r c)
  | .noneType => false

/-- Modelled from the spec (sections 4.3 and 4.3.1): `preview` reads a
scaled-down full-extent view applying the masking policy; the mask of its
top-left sample is the mask of pixel `(0, 0)` of the requested band. -/
def previewMaskTopLeft (h : ReaderHandle) (band : Nat) : Bool :=
  maskedAt h.dataset band 0 0

/-! ### Bounds and tiles (spec sections 4.2 and 4.3) -/

/-- An axis-aligned geographic box. -/
structure Box where
  minx : ℚ
  miny : ℚ
  maxx : ℚ
  maxy : ℚ
deriving DecidableEq

/-- Running minimum of a list of rationals, seeded with `a`. -/
def listMin (a : ℚ) : List ℚ → ℚ
  | [] => a
  | b :: t => listMin (min a b) t

/-- Running maximum of a list of rationals, seeded with `a`. -/
def listMax (a : ℚ) : List ℚ → ℚ
  | [] => a
  | b :: t => listMax (max a b) t

/-- The bounding box of a nonempty batch of points, given as a head point
plus the remaining points. -/
def bboxOf (q : ℚ × ℚ) (qs : List (ℚ × ℚ)) : Box :=
  { minx := listMin q.1 (qs.map Prod.fst)
    miny := listMin q.2 (qs.map Prod.snd)
    maxx := listMax q.1 (qs.map Prod.fst)
    maxy := listMax q.2 (qs.map Prod.snd) }

/-- The four image corner pixel coordinates `(row, col)` of a dataset. -/
def corners (d : DatasetHandle) : List (ℚ × ℚ) :=
  [(0, 0), (0, (d.width : ℚ)), ((d.height : ℚ), 0), ((d.height : ℚ), (d.width : ℚ))]

/-- Modelled from the spec (section 4.2): `bounds()`, the geographic
bounding box obtained by mapping the four image corners through
`pixel_to_geo` and taking min/max. -/
def boundsOf (gs : List GCP) (d : DatasetHandle) : Box :=
  bboxOf (pixel_to_geo gs (0, 0))
    [pixel_to_geo gs (0, (d.width : ℚ)), pixel_to_geo gs ((d.height : ℚ), 0),
     pixel_to_geo gs ((d.height : ℚ), (d.width : ℚ))]

/-- Whether a point lies inside a box. -/
def containsPt (b : Box) (q : ℚ × ℚ) : Prop :=
  b.minx ≤ q.1 ∧ q.1 ≤ b.maxx ∧ b.miny ≤ q.2 ∧ q.2 ≤ b.maxy

/-- Whether two axis-aligned boxes intersect. -/
def boxIntersects (a b : Box) : Bool :=
  a.minx ≤ b.maxx && b.minx ≤ a.maxx && a.miny ≤ b.maxy && b.miny ≤ a.maxy

/-- The pixel window of a geographic extent: the bounding box of the
`geo_to_pixel` images of its four corners. -/
def pixelWindow (gs : List GCP) (ext : Box) : Box :=
  bboxOf (geo_to_pixel gs (ext.minx, ext.miny))
    [geo_to_pixel gs (ext.minx, ext.maxy), geo_to_pixel gs (ext.maxx, ext.miny),
     geo_to_pixel gs (ext.maxx, ext.maxy)]

/-- Modelled from the spec (sections 4.3 and 8): `tile` at a requested
geographic extent: when the extent does not intersect `bounds()` it raises
`TileOutsideBoundsError`; otherwise it maps the extent to a pixel window
through `geo_to_pixel` and proceeds to read it. -/
def tile (gs : List GCP) (d : DatasetHandle) (ext : Box) : Except ReaderError Box :=
  if boxIntersects ext (boundsOf gs d) then .ok (pixelWindow gs ext)
  else .error .tileOutsideBoundsError

/-! ## Helper lemmas -/

/-- A successful `parse_gcps` always yields Python's `None`: the body of the
function binds the constructed list to a local and falls off the end. -/
theorem parse_gcps_ok_none {l : List String} {r : Option (List GroundControlPoint)}
    (h : parse_gcps l = .ok r) : r = none := by
  rw [parse_gcps] at h
  cases hm : mapExcept parseGCPString l with
  | error e => rw [hm] at h; exact absurd h (by simp [Bind.bind, Except.bind])
  | ok v =>
    rw [hm] at h
    simpa [Bind.bind, Except.bind, pure, Except.pure] using h.symm

/-- `mapOpt` fails whenever some element of the list fails. -/
theorem mapOpt_eq_none_of_mem {f : α → Option β} {l : List α} {a : α}
    (ha : a ∈ l) (hf : f a = none) : mapOpt f l = none := by
  induction l with
  | nil => cases ha
  | cons b t ih =>
    rw [mapOpt]
    rcases List.mem_cons.1 ha with rfl | hat
    · rw [hf]
    · cases hb : f b with
      | none => rfl
      | some v => rw [ih hat]

/-- `mapExcept` raises whenever some element of the list raises (the raised
error is that of the leftmost failing element, so only its existence is
stated). -/
theorem mapExcept_error_of_mem {f : α → Except ε β} {l : List α} {a : α} {e : ε}
    (ha : a ∈ l) (hf : f a = .error e) : ∃ e2, mapExcept f l = .error e2 := by
  induction l with
  | nil => cases ha
  | cons b t ih =>
    cases hb : f b with
    | error eb => exact ⟨eb, by rw [mapExcept, hb]⟩
    | ok v =>
      rcases List.mem_cons.1 ha with rfl | hat
      · rw [hb] at hf; cases hf
      · obtain ⟨e2, he2⟩ := ih hat
        exact ⟨e2, by rw [mapExcept, hb, he2]⟩

/-- A GCP string containing a field that does not parse as a float raises
`ValueError`. -/
theorem parseGCPString_error_of_bad_field {s : String} {f : List Char}
    (hf : f ∈ splitOnChar ',' s.data) (hbad : pyFloat f = none) :
    parseGCPString s = .error .valueError := by
  rw [parseGCPString, mapOpt_eq_none_of_mem hf hbad]

/-- A concrete environment for witnesses: a reader whose dataset echoes
coordinates and an identity coordinate transformer. -/
def env0 : Env :=
  { readerDataset := fun _ _ =>
      { crsStr := "epsg:4326", index := fun a b => (a, b), xy := fun a b => (a, b) }
    transform := fun _ _ a b => (a, b) }

/-! ## Claims about the conversion endpoints (main.py) -/

/-- C8: for every input list of GCP strings, `parse_gcps` returns `None`
(the `GroundControlPoint` list it constructs is never returned), so both
conversion endpoints always call `Reader` with `gcps=None` regardless of
the GCP strings supplied in the request: whenever the endpoints reach their
`Reader` call, the call's `gcps` argument is `none`. -/
theorem readerCall_gcps_always_none (url : String) (gcps : List String) (c c2 : ReaderCall)
    (h1 : latlng_to_pixel_readerCall url gcps = .ok c)
    (h2 : pixel_to_latlng_readerCall url gcps = .ok c2) :
    c.gcps = none ∧ c2.gcps = none := by
  rw [latlng_to_pixel_readerCall] at h1
  rw [pixel_to_latlng_readerCall] at h2
  cases hp : parse_gcps gcps with
  | error e =>
    rw [hp] at h1
    exact absurd h1 (by simp [Bind.bind, Except.bind])
  | ok r =>
    have hr := parse_gcps_ok_none hp
    subst hr
    rw [hp] at h1 h2
    simp only [Bind.bind, Except.bind, pure, Except.pure, Except.ok.injEq] at h1 h2
    rw [← h1, ← h2]
    exact ⟨rfl, rfl⟩

/-- Witness for C8 at a concrete request. -/
theorem readerCall_gcps_always_none_witness :
    ReaderCall.gcps { url := "u", gcps := none } = none ∧
    ReaderCall.gcps { url := "u", gcps := none } = none :=
  readerCall_gcps_always_none "u" ["1,2,3,4,5"] { url := "u", gcps := none }
    { url := "u", gcps := none } (by decide) (by decide)

/-- C1 (code bug evidence): evaluating the code at a well-formed request
shows the spec's contract broken: the GCP string `"1,2,3,4,5"` parses into
a full five-field Ground Control Point, yet both endpoints call `Reader`
with `gcps=None` because `parse_gcps` never returns the list it builds;
moreover a 4-field string is accepted (the missing elevation defaults)
rather than rejected as "not exactly 5 numeric fields". -/
theorem parse_gcps_discards_parsed_list :
    parseGCPString "1,2,3,4,5" =
      .ok { row := some 1, col := some 2, x := some 3, y := some 4, z := some 5 } ∧
    latlng_to_pixel_readerCall "https://example.com/image.tif" ["1,2,3,4,5"] =
      .ok { url := "https://example.com/image.tif", gcps := none } ∧
    pixel_to_latlng_readerCall "https://example.com/image.tif" ["1,2,3,4,5"] =
      .ok { url := "https://example.com/image.tif", gcps := none } ∧
    parseGCPString "1,2,3,4" =
      .ok { row := some 1, col := some 2, x := some 3, y := some 4 } :=
  ⟨by decide, by decide, by decide, by decide⟩

/-- C9: two requests to `latlng_to_pixel` (and to `pixel_to_latlng`) that
agree on `url` and the coordinate arguments but differ in their well-formed
`gcps` query values produce identical responses, for every behavior of the
external reader and transformer: the supplied GCPs never influence the
returned coordinates. -/
theorem endpoints_ignore_wellformed_gcps (env : Env) (url : String) (lat lng px py : ℚ)
    (g1 g2 : List String) (h1 : (parse_gcps g1).isOk = true)
    (h2 : (parse_gcps g2).isOk = true) :
    latlng_to_pixel env url lat lng g1 = latlng_to_pixel env url lat lng g2 ∧
    pixel_to_latlng env url px py g1 = pixel_to_latlng env url px py g2 := by
  cases hp1 : parse_gcps g1 with
  | error e => rw [hp1] at h1; exact absurd h1 (by simp [Except.isOk, Except.toBool])
  | ok r1 =>
    cases hp2 : parse_gcps g2 with
    | error e => rw [hp2] at h2; exact absurd h2 (by simp [Except.isOk, Except.toBool])
    | ok r2 =>
      have hr1 := parse_gcps_ok_none hp1
      have hr2 := parse_gcps_ok_none hp2
      subst hr1; subst hr2
      rw [latlng_to_pixel, latlng_to_pixel, pixel_to_latlng, pixel_to_latlng, hp1, hp2]
      exact ⟨rfl, rfl⟩

/-- Witness for C9 at two concrete requests differing only in their GCPs. -/
theorem endpoints_ignore_wellformed_gcps_witness :
    latlng_to_pixel env0 "u" 1 2 ["1,2,3,4,5"] = latlng_to_pixel env0 "u" 1 2 ["9,8,7,6,5"] ∧
    pixel_to_latlng env0 "u" 3 4 ["1,2,3,4,5"] = pixel_to_latlng env0 "u" 3 4 ["9,8,7,6,5"] :=
  endpoints_ignore_wellformed_gcps env0 "u" 1 2 3 4 ["1,2,3,4,5"] ["9,8,7,6,5"]
    (by decide) (by decide)

/-- C10: if any supplied GCP string contains a comma-separated field that
does not parse as a float, `parse_gcps` raises, and both endpoints return
that very error for EVERY behavior of the external reader environment:
the failure happens during GCP parsing, before any `Reader` is opened. -/
theorem malformed_gcp_errors_before_reader (url : String) (lat lng px py : ℚ)
    (gcps : List String) (s : String) (f : List Char) (hs : s ∈ gcps)
    (hf : f ∈ splitOnChar ',' s.data) (hbad : pyFloat f = none) :
    ∃ e, parse_gcps gcps = .error e ∧
      ∀ env : Env, latlng_to_pixel env url lat lng gcps = .error e ∧
        pixel_to_latlng env url px py gcps = .error e := by
  have hse := parseGCPString_error_of_bad_field hf hbad
  obtain ⟨e2, he2⟩ := mapExcept_error_of_mem hs hse
  have hp : parse_gcps gcps = .error e2 := by
    rw [parse_gcps, he2]; rfl
  refine ⟨e2, hp, fun env => ⟨?_, ?_⟩⟩
  · rw [latlng_to_pixel, hp]; rfl
  · rw [pixel_to_latlng, hp]; rfl

/-- Witness for C10 at a concrete request whose second GCP string has a
non-numeric third field. -/
theorem malformed_gcp_errors_before_reader_witness :
    ∃ e, parse_gcps ["1,2,3,4,5", "1,2,x,4,5"] = .error e ∧
      ∀ env : Env, latlng_to_pixel env "u" 1 2 ["1,2,3,4,5", "1,2,x,4,5"] = .error e ∧
        pixel_to_latlng env "u" 3 4 ["1,2,3,4,5", "1,2,x,4,5"] = .error e :=
  malformed_gcp_errors_before_reader "u" 1 2 3 4 ["1,2,3,4,5", "1,2,x,4,5"]
    "1,2,x,4,5" "x".data (by decide) (by decide) (by decide)

/-- C7 (counterexample): the claim that warning suppression is a scoped
flag rather than a process-wide mutable setting is false of the code: if it
were scoped, importing the application module would leave the process-wide
warnings state unchanged, but main.py line 43 mutates it: the observable
suppression of `NotGeoreferencedWarning` differs before and after module
import. -/
theorem warning_suppression_not_scoped :
    ¬ (suppressed (appModuleImport initialFilters) WarningCategory.notGeoreferencedWarning =
        suppressed initialFilters WarningCategory.notGeoreferencedWarning) := by
  decide

/-- C7 (amended): warning suppression of `NotGeoreferencedWarning` is a
process-wide mutable setting installed at module import, whatever warnings
state came before: after `appModuleImport` the category is suppressed for
every subsequently opened `Reader`, rather than being passed per call (the
`Reader` call record carries only `url` and `gcps`, no warnings flag). -/
theorem warning_suppression_processwide (st : WarningFilters) :
    suppressed (appModuleImport st) WarningCategory.notGeoreferencedWarning = true := by
  simp [suppressed, appModuleImport, filterwarningsIgnore, List.contains_cons]

/-! ## Fixtures for the Reader-core claims -/

/-- Modelled from the spec (section 8): the GCP Set of the fixture raster,
four non-collinear in-bounds correspondences carrying the epsg:4326 CRS
tag. -/
def fixGSet : GCPSet :=
  { points :=
      [ { row := 100, col := 100, x := 10, y := 20 },
        { row := 100, col := 1300, x := 11, y := 20 },
        { row := 1000, col := 100, x := 10, y := 19 },
        { row := 1000, col := 1300, x := 11, y := 19 } ]
    crsTag := some "epsg:4326" }

/-- Modelled from the spec (section 8): the 1417 by 1071, 2-band fixture
raster with embedded GCPs: a gray band and an alpha band with neither
names nor descriptions, no scalar nodata, no internal mask band, and an
alpha value of 0 at the top-left pixel (opaque elsewhere). -/
def fixD : DatasetHandle :=
  { width := 1417
    height := 1071
    bands := [{ colorinterp := "gray" }, { colorinterp := "alpha" }]
    embeddedGCPs := some fixGSet
    pixels := fun b r c => if b == 1 && r == 0 && c == 0 then 0 else 255 }

/-- The `info()` record the fixture raster must report. -/
def fixInfo : RasterInfo :=
  { count := 2
    band_descriptions := [("b1", ""), ("b2", "")]
    colorinterp := ["gray", "alpha"]
    nodata_type := "Alpha"
    width := 1417
    height := 1071
    crs := some "epsg:4326" }

/-- A degenerate GCP Set: only two distinct points. -/
def degG : GCPSet :=
  { points := [{ row := 0, col := 0, x := 0, y := 0 }, { row := 5, col := 5, x := 1, y := 1 }] }

/-- A small raster carrying the degenerate GCP Set as its embedded GCPs. -/
def degD : DatasetHandle :=
  { width := 10, height := 10, bands := [{ colorinterp := "gray" }]
    embeddedGCPs := some degG, pixels := fun _ _ _ => 0 }

/-- Three GCPs whose affine fit is `x = col`, `y = row`. -/
def gs0 : List GCP :=
  [ { row := 0, col := 0, x := 0, y := 0 },
    { row := 0, col := 1, x := 1, y := 0 },
    { row := 1, col := 0, x := 0, y := 1 } ]

/-- A tiny 2 by 2 raster for the bounds/tile witness. -/
def d6 : DatasetHandle :=
  { width := 2, height := 2, bands := [{ colorinterp := "gray" }]
    pixels := fun _ _ _ => 0 }

/-- A geographic extent lying entirely outside `boundsOf gs0 d6`. -/
def ext0 : Box := { minx := 10, miny := 10, maxx := 11, maxy := 11 }

/-! ## Bounding-box lemmas -/

/-- The running minimum is below its seed. -/
theorem listMin_le_base (a : ℚ) (l : List ℚ) : listMin a l ≤ a := by
  induction l generalizing a with
  | nil => exact le_refl a
  | cons b t ih => exact le_trans (ih (min a b)) (min_le_left a b)

/-- The running minimum is below every list element. -/
theorem listMin_le_mem (a : ℚ) (l : List ℚ) (x : ℚ) (hx : x ∈ l) : listMin a l ≤ x := by
  induction l generalizing a with
  | nil => cases hx
  | cons b t ih =>
    rcases List.mem_cons.1 hx with rfl | hxt
    · exact le_trans (listMin_le_base (min a x) t) (min_le_right a x)
    · exact ih (min a b) hxt

/-- The running maximum is above its seed. -/
theorem le_listMax_base (a : ℚ) (l : List ℚ) : a ≤ listMax a l := by
  induction l generalizing a with
  | nil => exact le_refl a
  | cons b t ih => exact le_trans (le_max_left a b) (ih (max a b))

/-- The running maximum is above every list element. -/
theorem le_listMax_mem (a : ℚ) (l : List ℚ) (x : ℚ) (hx : x ∈ l) : x ≤ listMax a l := by
  induction l generalizing a with
  | nil => cases hx
  | cons b t ih =>
    rcases List.mem_cons.1 hx with rfl | hxt
    · exact le_trans (le_max_right a x) (le_listMax_base (max a x) t)
    · exact ih (max a b) hxt

/-- `bboxOf` contains every point of its batch. -/
theorem bboxOf_contains (q : ℚ × ℚ) (qs : List (ℚ × ℚ)) (y : ℚ × ℚ)
    (hy : y = q ∨ y ∈ qs) : containsPt (bboxOf q qs) y := by
  rcases hy with rfl | hy
  · exact ⟨listMin_le_base _ _, le_listMax_base _ _, listMin_le_base _ _,
      le_listMax_base _ _⟩
  · exact ⟨listMin_le_mem _ _ _ (List.mem_map_of_mem Prod.fst hy),
      le_listMax_mem _ _ _ (List.mem_map_of_mem Prod.fst hy),
      listMin_le_mem _ _ _ (List.mem_map_of_mem Prod.snd hy),
      le_listMax_mem _ _ _ (List.mem_map_of_mem Prod.snd hy)⟩

/-! ## Claims about the Reader core (spec-modelled) -/

/-- C2: for the same raw pixel data, opening a dataset whose GCP Set is
embedded internally and opening the GCP-stripped dataset with the same GCP
Set supplied externally yield identical `info()` results and identical
`crs` (including identical failure when validation rejects the set). -/
theorem info_invariant_embedded_vs_external (d : DatasetHandle) (g : GCPSet)
    (hg : d.embeddedGCPs = some g) (hne : g.points ≠ []) :
    (openReader d none).map infoOf = (openReader (stripGCPs d) (some g)).map infoOf ∧
    (openReader d none).map crsOf = (openReader (stripGCPs d) (some g)).map crsOf := by
  have hic : g.points.isEmpty = false := by
    cases hgp : g.points with
    | nil => exact absurd hgp hne
    | cons a t => rfl
  have hv : validateGCPs (stripGCPs d) g = validateGCPs d g := rfl
  constructor <;>
  · simp only [openReader, resolve, resolveEmbedded, hg, hic, Bool.false_eq_true,
      if_false, hv]
    cases hvv : validateGCPs d g with
    | error e => simp [Bind.bind, Except.bind, Except.map]
    | ok u => simp [Bind.bind, Except.bind, Except.map, pure, Except.pure, infoOf,
        crsOf, assemble, bandDescriptions, classify, stripGCPs]

/-- Witness for C2 at the concrete fixture raster and its GCP Set. -/
theorem info_invariant_embedded_vs_external_witness :
    (openReader fixD none).map infoOf =
      (openReader (stripGCPs fixD) (some fixGSet)).map infoOf ∧
    (openReader fixD none).map crsOf =
      (openReader (stripGCPs fixD) (some fixGSet)).map crsOf :=
  info_invariant_embedded_vs_external fixD fixGSet rfl (by decide)

/-- C3: for a GCP Set whose least-squares affine fit is well posed
(nonvanishing normal determinant, the formal rendering of at least 3
non-collinear pixel locations) and invertible (nonvanishing linear-part
determinant, the fit being exactly interpolating for 3 non-collinear
GCPs), composing the forward transform with its inverse recovers every
pixel coordinate `(row, col)` exactly — over the exact rationals the
floating-point tolerance of the claim is zero. -/
theorem gcp_transform_round_trip (gs : List GCP) (h3 : 3 ≤ gs.length)
    (hM : normalDet gs ≠ 0) (hD : fitDet gs ≠ 0) (r c : ℚ) :
    geo_to_pixel gs (pixel_to_geo gs (r, c)) = (r, c) := by
  have hDq : (affineFit gs).a1 * (affineFit gs).b2 -
      (affineFit gs).a2 * (affineFit gs).b1 ≠ 0 := by
    rw [fitDet, qsub_eq, qmul_eq, qmul_eq] at hD
    exact hD
  rw [geo_to_pixel, pixel_to_geo, applyFwd_eq, applyInv_eq, Prod.mk.injEq]
  constructor
  · field_simp
    ring
  · field_simp
    ring

/-- Witness for C3 at a concrete 3-point GCP set and pixel coordinate. -/
theorem gcp_transform_round_trip_witness :
    3 ≤ gs0.length ∧ normalDet gs0 ≠ 0 ∧ fitDet gs0 ≠ 0 ∧
    geo_to_pixel gs0 (pixel_to_geo gs0 (5, 7)) = (5, 7) :=
  ⟨by decide, by decide, by decide,
    gcp_transform_round_trip gs0 (by decide) (by decide) (by decide) 5 7⟩

/-- C4: opening the 1417 by 1071, 2-band fixture raster with embedded GCPs
reports nodata type Alpha, band descriptions `[("b1",""), ("b2","")]`,
color interpretation `["gray","alpha"]`, count 2, crs epsg:4326, and a
preview whose top-left pixel is masked; supplying the same GCPs externally
against the GCP-stripped version reproduces identical results. -/
theorem fixture_reader_behavior :
    (openReader fixD none).map infoOf = .ok fixInfo ∧
    (openReader fixD none).map crsOf = .ok (some "epsg:4326") ∧
    (openReader fixD none).map (fun h => previewMaskTopLeft h 0) = .ok true ∧
    (openReader (stripGCPs fixD) (some fixGSet)).map infoOf = .ok fixInfo ∧
    (openReader (stripGCPs fixD) (some fixGSet)).map crsOf = .ok (some "epsg:4326") ∧
    (openReader (stripGCPs fixD) (some fixGSet)).map (fun h => previewMaskTopLeft h 0) =
      .ok true :=
  ⟨by decide, by decide, by decide, by decide, by decide, by decide⟩

/-- C5: a GCP Set with fewer than 3 distinct points, or with all pixel
locations collinear, or with a pixel coordinate outside the raster's
`[0, width) x [0, height)` bounds, fails with `InvalidGCPError` at
resolution (open) time, on both the external and the embedded path; the
error return means no transform is ever built for it. -/
theorem degenerate_gcps_rejected_at_resolution (d : DatasetHandle) (g : GCPSet)
    (hdeg : g.points.dedup.length < 3 ∨ collinearPts g.points = true ∨
      ∃ p ∈ g.points, inBoundsGCP d p = false) :
    (g.points ≠ [] → resolve d (some g) = .error .invalidGCPError) ∧
    (d.embeddedGCPs = some g → resolve d none = .error .invalidGCPError) := by
  have hB : degenerateGCPs d g = true := by
    rcases hdeg with h | h | ⟨p, hp, hb⟩
    · simp [degenerateGCPs, h]
    · simp [degenerateGCPs, h]
    · simp only [degenerateGCPs, Bool.or_eq_true, List.any_eq_true]
      exact Or.inr ⟨p, hp, by simp [hb]⟩
  have hval : validateGCPs d g = .error .invalidGCPError := by
    rw [validateGCPs, hB]
    rfl
  constructor
  · intro hne
    have hic : g.points.isEmpty = false := by
      cases hgp : g.points with
      | nil => exact absurd hgp hne
      | cons a t => rfl
    simp [resolve, hic, hval, Bind.bind, Except.bind]
  · intro hg
    simp [resolve, resolveEmbedded, hg, hval, Bind.bind, Except.bind]

/-- Witness for C5 at a concrete two-point GCP Set, on both paths. -/
theorem degenerate_gcps_rejected_at_resolution_witness :
    resolve degD (some degG) = .error .invalidGCPError ∧
    resolve degD none = .error .invalidGCPError :=
  ⟨(degenerate_gcps_rejected_at_resolution degD degG (Or.inl (by decide))).1 (by decide),
   (degenerate_gcps_rejected_at_resolution degD degG (Or.inl (by decide))).2 rfl⟩

/-- C6: for a dataset resolved with a valid GCP transform, `bounds()`
contains the `pixel_to_geo` images of all four image corners (exactly,
over the rationals), and every tile request whose geographic extent lies
entirely outside `bounds()` raises `TileOutsideBoundsError`. -/
theorem bounds_contain_corners_and_outside_tile_errors (gs : List GCP)
    (d : DatasetHandle) (ext : Box) (hM : normalDet gs ≠ 0) :
    (∀ rc ∈ corners d, containsPt (boundsOf gs d) (pixel_to_geo gs rc)) ∧
    (boxIntersects ext (boundsOf gs d) = false →
      tile gs d ext = .error .tileOutsideBoundsError) := by
  constructor
  · intro rc hrc
    simp only [corners, List.mem_cons, List.not_mem_nil, or_false] at hrc
    refine bboxOf_contains _ _ _ ?_
    rcases hrc with rfl | rfl | rfl | rfl
    · exact Or.inl rfl
    · exact Or.inr (by simp)
    · exact Or.inr (by simp)
    · exact Or.inr (by simp)
  · intro h
    simp [tile, h]

/-- Witness for C6 at a concrete transform, raster and disjoint extent. -/
theorem bounds_tile_witness :
    containsPt (boundsOf gs0 d6) (pixel_to_geo gs0 (0, 0)) ∧
    tile gs0 d6 ext0 = .error .tileOutsideBoundsError :=
  ⟨(bounds_contain_corners_and_outside_tile_errors gs0 d6 ext0 (by decide)).1
      (0, 0) (by decide),
   (bounds_contain_corners_and_outside_tile_errors gs0 d6 ext0 (by decide)).2 (by decide)⟩

end TitilerImage
